import Mathlib

/-!
Verification of the orchestration layer of the aoc-cli command-line client
(src/main.rs): the error taxonomy and exit classifier, the client
configuration builder with its credential step and four-row puzzle-date
fallback table, the command dispatcher, and the logging setup.

The external `aoc_client` collaborator (session-cookie discovery, the
remote-aware "latest" resolution, rendering and saving) is out of scope of
the source file; its operations are modelled as an oracle of outcomes
(`Env`, `REnv`), with the behaviour of each operation modelled from the
spec where it matters.
-/

namespace AocCli

/-- The closed error taxonomy of the aoc_client collaborator, as matched
exhaustively by the exit-code classification in main (src/main.rs). -/
inductive ErrorKind where
  | invalidPuzzleDate
  | invalidEventYear
  | invalidPuzzleDay
  | lockedPuzzle
  | sessionFileNotFound
  | sessionFileReadError
  | invalidSessionCookie
  | httpRequestError
  | aocResponseError
  | privateLeaderboardNotAvailable
  | fileWriteError
  | clientFieldMissing
  | invalidPuzzlePart
  | invalidOutputWidth
  deriving DecidableEq, Repr

/-- Process exit code SUCCESS of the exit_code crate (sysexits numbering). -/
def SUCCESS : Nat := 0

/-- Process exit code FAILURE of the exit_code crate. -/
def FAILURE : Nat := 1

/-- Process exit code USAGE_ERROR of the exit_code crate. -/
def USAGE_ERROR : Nat := 64

/-- Process exit code DATA_ERROR of the exit_code crate. -/
def DATA_ERROR : Nat := 65

/-- Process exit code NO_INPUT of the exit_code crate. -/
def NO_INPUT : Nat := 66

/-- Process exit code CANNOT_CREATE of the exit_code crate. -/
def CANNOT_CREATE : Nat := 73

/-- Process exit code IO_ERROR of the exit_code crate. -/
def IO_ERROR : Nat := 74

/-- The exit-code classification: the `match err` in main (src/main.rs,
lines 24-39), one arm per ErrorKind, in source order. -/
def exitCodeOf : ErrorKind → Nat
  | .invalidPuzzleDate => USAGE_ERROR
  | .invalidEventYear => USAGE_ERROR
  | .invalidPuzzleDay => USAGE_ERROR
  | .lockedPuzzle => USAGE_ERROR
  | .sessionFileNotFound => NO_INPUT
  | .sessionFileReadError => IO_ERROR
  | .invalidSessionCookie => DATA_ERROR
  | .httpRequestError => FAILURE
  | .aocResponseError => FAILURE
  | .privateLeaderboardNotAvailable => FAILURE
  | .fileWriteError => CANNOT_CREATE
  | .clientFieldMissing => USAGE_ERROR
  | .invalidPuzzlePart => USAGE_ERROR
  | .invalidOutputWidth => USAGE_ERROR

/-- The exit-code table written directly from the spec's words (spec §6),
row by row, to be compared against `exitCodeOf` from the source. -/
def specExitCode : ErrorKind → Nat
  | .invalidPuzzleDate | .invalidEventYear | .invalidPuzzleDay
  | .lockedPuzzle | .clientFieldMissing | .invalidPuzzlePart
  | .invalidOutputWidth => USAGE_ERROR
  | .sessionFileNotFound => NO_INPUT
  | .sessionFileReadError => IO_ERROR
  | .invalidSessionCookie => DATA_ERROR
  | .httpRequestError | .aocResponseError
  | .privateLeaderboardNotAvailable => FAILURE
  | .fileWriteError => CANNOT_CREATE

/-- Shells accepted by the generate-completion subcommand (clap_complete). -/
inductive Shell where
  | bash
  | zsh
  | fish
  | powershell
  | elvish
  deriving DecidableEq, Repr

/-- The parsed subcommand (args::Command), one variant per subcommand of
the CLI; `read` is the explicit form of the default operation. -/
inductive Command where
  | calendar
  | download
  | submit (part : Nat) (answer : String)
  | privateLeaderboard (leaderboardId : Nat)
  | read
  | generateCompletion (shell : Shell)
  deriving DecidableEq, Repr

/-- The parsed arguments (args::Args) as consumed by main, build_client,
setup_log and run in src/main.rs. -/
structure Args where
  year : Option Int
  day : Option Nat
  width : Option Nat
  session_file : Option String
  quiet : Bool
  debug : Bool
  overwrite : Bool
  show_html_markup : Bool
  input_only : Bool
  puzzle_only : Bool
  input_file : String
  puzzle_file : String
  command : Option Command
  deriving DecidableEq, Repr

/-- Mutable state of the aoc_client configuration builder: which fields
have been set so far. Modelled from the spec: credential source, resolved
event year, resolved puzzle day, optional output width, filenames,
overwrite flag, markup flag (spec §3, ClientConfiguration). -/
structure BuilderState where
  sessionCookie : Bool
  year : Option Int
  day : Option Nat
  outputWidth : Option Nat
  inputFilename : Option String
  puzzleFilename : Option String
  overwriteFiles : Bool
  showHtmlMarkup : Bool
  deriving DecidableEq, Repr

/-- The fresh builder returned by AocClient::builder(). -/
def initialBuilder : BuilderState :=
  { sessionCookie := false, year := none, day := none, outputWidth := none,
    inputFilename := none, puzzleFilename := none,
    overwriteFiles := false, showHtmlMarkup := false }

/-- Oracle of outcomes of the external aoc_client collaborator operations
invoked by build_client. Modelled from the spec: session-cookie loading
and discovery are fallible opaque operations; year/day/width validation
are range checks; "latest" resolution is fallible and remote-aware
(spec §4.1, §4.2). -/
structure Env where
  sessionFromFile : String → Except ErrorKind Unit
  sessionFromDefaultLocations : Except ErrorKind Unit
  yearOk : Int → Bool
  dayOk : Nat → Bool
  latestYear : Except ErrorKind Int
  latestDayOf : Int → Except ErrorKind Nat
  widthOk : Nat → Bool

/-- Modelled from the spec: the builder step that loads the session cookie
from an explicit file path; on success the credential is set (spec §4.2,
failure modes SessionFileNotFound / SessionFileReadError /
InvalidSessionCookie carried by the oracle). -/
def session_cookie_from_file (env : Env) (file : String) (s : BuilderState) :
    Except ErrorKind BuilderState :=
  match env.sessionFromFile file with
  | .ok _ => .ok { s with sessionCookie := true }
  | .error e => .error e

/-- Modelled from the spec: the builder step that discovers the session
cookie from default locations (spec §4.2). -/
def session_cookie_from_default_locations (env : Env) (s : BuilderState) :
    Except ErrorKind BuilderState :=
  match env.sessionFromDefaultLocations with
  | .ok _ => .ok { s with sessionCookie := true }
  | .error e => .error e

/-- Modelled from the spec: the builder's set-year step, failing with
InvalidEventYear when the year is outside the valid range (spec §4.1). -/
def year (env : Env) (y : Int) (s : BuilderState) : Except ErrorKind BuilderState :=
  if env.yearOk y then .ok { s with year := some y } else .error .invalidEventYear

/-- Modelled from the spec: the builder's set-day step, failing with
InvalidPuzzleDay when the day is outside 1-25 (spec §4.1). -/
def day (env : Env) (d : Nat) (s : BuilderState) : Except ErrorKind BuilderState :=
  if env.dayOk d then .ok { s with day := some d } else .error .invalidPuzzleDay

/-- Modelled from the spec: the builder step that sets the year to the
latest event year, resolved by the remote-aware collaborator (spec §4.1). -/
def latest_event_year (env : Env) (s : BuilderState) : Except ErrorKind BuilderState :=
  match env.latestYear with
  | .ok y => .ok { s with year := some y }
  | .error e => .error e

/-- Modelled from the spec: the builder step that sets the day to the
latest day of the configured year's event; when no year is configured it
first resolves the latest event year, per spec §4.1 row four (set
year(latest event year); set day(latest day of that event)). -/
def latest_puzzle_day (env : Env) (s : BuilderState) : Except ErrorKind BuilderState :=
  match s.year with
  | some y =>
    match env.latestDayOf y with
    | .ok d => .ok { s with day := some d }
    | .error e => .error e
  | none =>
    match env.latestYear with
    | .ok y =>
      match env.latestDayOf y with
      | .ok d => .ok { s with year := some y, day := some d }
      | .error e => .error e
    | .error e => .error e

/-- Modelled from the spec: the builder's output-width step, failing with
InvalidOutputWidth when the width is outside the accepted range; it only
records the width (spec §4.1). -/
def output_width (env : Env) (w : Nat) (s : BuilderState) : Except ErrorKind BuilderState :=
  if env.widthOk w then .ok { s with outputWidth := some w } else .error .invalidOutputWidth

/-- The immutable client produced by a successful build, consumed by run. -/
structure AocClient where
  year : Int
  day : Nat
  outputWidth : Option Nat
  inputFilename : String
  puzzleFilename : String
  overwriteFiles : Bool
  showHtmlMarkup : Bool
  deriving DecidableEq, Repr

/-- Modelled from the spec: the finalizing build step fails with
ClientFieldMissing if credential, year or day was never successfully set;
otherwise it freezes the builder into an immutable client (spec §4.2). -/
def build (s : BuilderState) : Except ErrorKind AocClient :=
  match s.year, s.day with
  | some y, some d =>
    if s.sessionCookie then
      .ok { year := y, day := d, outputWidth := s.outputWidth,
            inputFilename := s.inputFilename.getD default,
            puzzleFilename := s.puzzleFilename.getD default,
            overwriteFiles := s.overwriteFiles,
            showHtmlMarkup := s.showHtmlMarkup }
    else .error .clientFieldMissing
  | _, _ => .error .clientFieldMissing

/-- One builder call attempted by build_client, recorded in order of
attempt so that exclusivity and ordering of the steps can be stated. -/
inductive Step where
  | sessionCookieFromFile (file : String)
  | sessionCookieFromDefaultLocations
  | setYear (y : Int)
  | setDay (d : Nat)
  | latestEventYearStep
  | latestPuzzleDayStep
  | setOutputWidth (w : Nat)
  | setInputFilename (file : String)
  | setPuzzleFilename (file : String)
  | setOverwriteFiles (b : Bool)
  | setShowHtmlMarkup (b : Bool)
  | buildStep
  deriving DecidableEq, Repr

/-- Whether a step is one of the two credential operations. -/
def isCredStep : Step → Bool
  | .sessionCookieFromFile _ => true
  | .sessionCookieFromDefaultLocations => true
  | _ => false

/-- Whether a step is the output-width configuration step. -/
def isWidthStep : Step → Bool
  | .setOutputWidth _ => true
  | _ => false

/-- The credential part of build_client (src/main.rs, lines 71-75): the
`if let Some(file) = &args.session_file` choosing exactly one of the two
session-cookie operations, with the step it attempts. -/
def credStep (env : Env) (a : Args) (s : BuilderState) :
    Except ErrorKind BuilderState × List Step :=
  match a.session_file with
  | some file => (session_cookie_from_file env file s, [.sessionCookieFromFile file])
  | none => (session_cookie_from_default_locations env s, [.sessionCookieFromDefaultLocations])

/-- The date-resolution part of build_client (src/main.rs, lines 77-82):
the four-way match on (args.year, args.day), with the builder calls it
attempts in order; each `?` short-circuits. -/
def resolveDate (env : Env) (oy : Option Int) (od : Option Nat) (s : BuilderState) :
    Except ErrorKind BuilderState × List Step :=
  match oy, od with
  | some y, some d =>
    match year env y s with
    | .error e => (.error e, [.setYear y])
    | .ok s1 => (day env d s1, [.setYear y, .setDay d])
  | some y, none =>
    match year env y s with
    | .error e => (.error e, [.setYear y])
    | .ok s1 => (latest_puzzle_day env s1, [.setYear y, .latestPuzzleDayStep])
  | none, some d =>
    match latest_event_year env s with
    | .error e => (.error e, [.latestEventYearStep])
    | .ok s1 => (day env d s1, [.latestEventYearStep, .setDay d])
  | none, none => (latest_puzzle_day env s, [.latestPuzzleDayStep])

/-- The trace of the trailing unconditional steps of build_client
(src/main.rs, lines 88-93). -/
def finishSteps (a : Args) : List Step :=
  [.setInputFilename a.input_file, .setPuzzleFilename a.puzzle_file,
   .setOverwriteFiles a.overwrite, .setShowHtmlMarkup a.show_html_markup,
   .buildStep]

/-- The trailing unconditional steps of build_client (src/main.rs, lines
88-93): input_filename, puzzle_filename, overwrite_files,
show_html_markup, then the finalizing build(). -/
def finishBuild (a : Args) (s : BuilderState) (t : List Step) :
    Except ErrorKind AocClient × List Step :=
  (build { s with inputFilename := some a.input_file,
                  puzzleFilename := some a.puzzle_file,
                  overwriteFiles := a.overwrite,
                  showHtmlMarkup := a.show_html_markup },
   t ++ finishSteps a)

/-- Shallow embedding of build_client (src/main.rs, lines 68-94): the
credential step, the four-way date resolution, the optional output-width
step, the unconditional setters and the finalizing build, each `?`
short-circuiting; paired with the trace of builder calls attempted. -/
def build_client (env : Env) (a : Args) : Except ErrorKind AocClient × List Step :=
  match credStep env a initialBuilder with
  | (.error e, t1) => (.error e, t1)
  | (.ok s1, t1) =>
    match resolveDate env a.year a.day s1 with
    | (.error e, t2) => (.error e, t1 ++ t2)
    | (.ok s2, t2) =>
      match a.width with
      | some w =>
        match output_width env w s2 with
        | .error e => (.error e, t1 ++ t2 ++ [.setOutputWidth w])
        | .ok s3 => finishBuild a s3 (t1 ++ t2 ++ [.setOutputWidth w])
      | none => finishBuild a s2 (t1 ++ t2)

/-- The four-row fallback table of spec §4.1, written directly from the
spec's words: first set the year (the given one, else the latest event
year), then set the day (the given one, else the latest day of that
event), stopping at the first failing step. -/
def specResolveDate (env : Env) (oy : Option Int) (od : Option Nat) (s : BuilderState) :
    Except ErrorKind BuilderState :=
  match (match oy with
         | some y => year env y s
         | none => latest_event_year env s) with
  | .error e => .error e
  | .ok s1 =>
    match od with
    | some d => day env d s1
    | none =>
      match s1.year with
      | some y =>
        match env.latestDayOf y with
        | .ok d => .ok { s1 with day := some d }
        | .error e => .error e
      | none => .error .clientFieldMissing

/-- One top-level operation invoked by run (src/main.rs, lines 96-123):
a client operation, or the completion-script emission to standard
output, which touches no client. -/
inductive RunOp where
  | showCalendar
  | savePuzzleMarkdown
  | saveInput
  | submitAnswer (part : Nat) (answer : String)
  | showPrivateLeaderboard (leaderboardId : Nat)
  | showPuzzle
  | generateCompletion (shell : Shell)
  deriving DecidableEq, Repr

/-- Whether a dispatched operation goes through the built client (all of
them except the completion-script emission). -/
def isClientOp : RunOp → Bool
  | .generateCompletion _ => false
  | _ => true

/-- Oracle of outcomes of the client operations invoked by run; each is an
opaque external operation that succeeds or fails with one ErrorKind. -/
structure REnv where
  showCalendar : Except ErrorKind Unit
  savePuzzleMarkdown : Except ErrorKind Unit
  saveInput : Except ErrorKind Unit
  submitAnswer : Nat → String → Except ErrorKind Unit
  showPrivateLeaderboard : Nat → Except ErrorKind Unit
  showPuzzle : Except ErrorKind Unit

/-- Shallow embedding of run (src/main.rs, lines 96-123): the match on
args.command dispatching one operation on the built client (Download's
two conditional saves with `?` short-circuit; GenerateCompletion emitting
the completion script and returning Ok); paired with the trace of
operations attempted. -/
def runT (renv : REnv) (a : Args) (_client : AocClient) :
    Except ErrorKind Unit × List RunOp :=
  match a.command with
  | some .calendar => (renv.showCalendar, [.showCalendar])
  | some .download =>
    if a.input_only then
      if a.puzzle_only then (.ok (), [])
      else (renv.saveInput, [.saveInput])
    else
      match renv.savePuzzleMarkdown with
      | .error e => (.error e, [.savePuzzleMarkdown])
      | .ok _ =>
        if a.puzzle_only then (.ok (), [.savePuzzleMarkdown])
        else (renv.saveInput, [.savePuzzleMarkdown, .saveInput])
  | some (.submit part answer) => (renv.submitAnswer part answer, [.submitAnswer part answer])
  | some (.privateLeaderboard i) => (renv.showPrivateLeaderboard i, [.showPrivateLeaderboard i])
  | some .read => (renv.showPuzzle, [.showPuzzle])
  | some (.generateCompletion sh) => (.ok (), [.generateCompletion sh])
  | none => (renv.showPuzzle, [.showPuzzle])

/-- Observable outcome of one whole invocation: the process exit code, the
presence of the credential-expiry warning line, and the traces of builder
calls and dispatched operations. -/
structure ProgramOutcome where
  exitCode : Nat
  warned : Bool
  buildTrace : List Step
  runOps : List RunOp
  deriving DecidableEq, Repr

/-- Shallow embedding of main's control flow (src/main.rs, lines 20-52):
`build_client(&args).and_then(|client| run(&args, client))`, then exit
with SUCCESS on Ok, or classify the error with `exitCodeOf` and emit the
credential-expiry warning exactly when the code equals FAILURE. -/
def program (env : Env) (renv : REnv) (a : Args) : ProgramOutcome :=
  match build_client env a with
  | (.error e, t) =>
    { exitCode := exitCodeOf e, warned := decide (exitCodeOf e = FAILURE),
      buildTrace := t, runOps := [] }
  | (.ok c, t) =>
    match runT renv a c with
    | (.error e, ops) =>
      { exitCode := exitCodeOf e, warned := decide (exitCodeOf e = FAILURE),
        buildTrace := t, runOps := ops }
    | (.ok _, ops) =>
      { exitCode := SUCCESS, warned := false, buildTrace := t, runOps := ops }

/-- Log level filters relevant to setup_log. -/
inductive LevelFilter where
  | error
  | debug
  deriving DecidableEq, Repr

/-- The logger configuration produced by setup_log: the baseline filter
(environment-provided default or "info") and the filter installed for
this program's own "aoc" module namespace, with timestamps disabled. -/
structure LogConfig where
  baselineFilter : String
  aocModuleFilter : Option LevelFilter
  timestamps : Bool
  deriving DecidableEq, Repr

/-- The default baseline filter string passed to default_filter_or. -/
def infoBaseline : String := "info"

/-- Shallow embedding of setup_log (src/main.rs, lines 55-66): baseline
from the environment or "info"; then `if args.quiet` installs the
error-only module filter, `else if args.debug` the debug-level one. -/
def setup_log (envFilter : Option String) (a : Args) : LogConfig :=
  { baselineFilter := envFilter.getD infoBaseline,
    aocModuleFilter :=
      if a.quiet then some .error
      else if a.debug then some .debug
      else none,
    timestamps := false }

/-! Concrete oracle and argument fixtures used to instantiate the theorems
on closed inputs. -/

/-- An oracle where every collaborator operation succeeds. -/
def envOk : Env :=
  { sessionFromFile := fun _ => .ok (), sessionFromDefaultLocations := .ok (),
    yearOk := fun _ => true, dayOk := fun _ => true,
    latestYear := .ok 2024, latestDayOf := fun _ => .ok 25,
    widthOk := fun _ => true }

/-- An oracle whose explicit-file session load fails: the file is absent. -/
def envNoSessionFile : Env :=
  { envOk with sessionFromFile := fun _ => .error .sessionFileNotFound }

/-- An oracle whose default-locations session discovery finds a malformed
cookie. -/
def envNoDefaultSession : Env :=
  { envOk with sessionFromDefaultLocations := .error .invalidSessionCookie }

/-- An oracle that rejects every output width. -/
def envBadWidth : Env :=
  { envOk with widthOk := fun _ => false }

/-- An oracle where every client operation succeeds. -/
def renvOk : REnv :=
  { showCalendar := .ok (), savePuzzleMarkdown := .ok (), saveInput := .ok (),
    submitAnswer := fun _ _ => .ok (), showPrivateLeaderboard := fun _ => .ok (),
    showPuzzle := .ok () }

/-- A client-operation oracle whose puzzle-description save fails. -/
def renvPuzzleSaveFails : REnv :=
  { renvOk with savePuzzleMarkdown := .error .fileWriteError }

/-- A session-file path fixture. -/
def sessionPath : String := "missing-session.txt"

/-- Baseline arguments: no options, no flags, no subcommand. -/
def argsBase : Args :=
  { year := none, day := none, width := none, session_file := none,
    quiet := false, debug := false, overwrite := false,
    show_html_markup := false, input_only := false, puzzle_only := false,
    input_file := "input", puzzle_file := "puzzle.md", command := none }

/-- Arguments with both the quiet and the debug flag set. -/
def argsQuietDebug : Args :=
  { argsBase with quiet := true, debug := true }

/-- Arguments with an explicit output width. -/
def argsWide : Args :=
  { argsBase with width := some 100 }

/-- Arguments selecting the download subcommand with neither modifier. -/
def argsDownload : Args :=
  { argsBase with command := some Command.download }

/-- Arguments selecting completion generation, no session file given. -/
def argsCompletion : Args :=
  { argsBase with command := some (Command.generateCompletion Shell.bash) }

/-- Arguments selecting completion generation together with an explicit
session-file path that points to a non-existent file. -/
def argsCompletionNoSession : Args :=
  { argsBase with
    session_file := some sessionPath,
    command := some (Command.generateCompletion Shell.bash) }

/-- The builder state right after a successful credential step. -/
def builderWithCookie : BuilderState :=
  { initialBuilder with sessionCookie := true }

/-- The builder state after `envOk` resolves the latest event dates. -/
def builderResolved : BuilderState :=
  { builderWithCookie with year := some 2024, day := some 25 }

/-- The client built by `envOk` from `argsBase`. -/
def clientBase : AocClient :=
  { year := 2024, day := 25, outputWidth := none, inputFilename := "input",
    puzzleFilename := "puzzle.md", overwriteFiles := false,
    showHtmlMarkup := false }

/-! Helper lemmas about the builder steps. -/

/-- A successful credential step only sets the cookie: the year of the
resulting builder state is still unset. -/
theorem credStep_ok_year_none (env : Env) (a : Args) (s1 : BuilderState)
    (h : (credStep env a initialBuilder).1 = .ok s1) : s1.year = none := by
  rcases hsf : a.session_file with _ | file <;>
    simp only [credStep, hsf] at h
  · rcases henv : env.sessionFromDefaultLocations with e | u <;>
      simp only [session_cookie_from_default_locations, henv,
        Except.ok.injEq, reduceCtorEq] at h
    subst h; rfl
  · rcases henv : env.sessionFromFile file with e | u <;>
      simp only [session_cookie_from_file, henv,
        Except.ok.injEq, reduceCtorEq] at h
    subst h; rfl

/-- On a builder state whose year is still unset — as after the credential
step — the date-resolution match of build_client computes exactly the
four-row fallback plan written from the spec's words. -/
theorem resolveDate_eq_spec (env : Env) (oy : Option Int) (od : Option Nat)
    (s : BuilderState) (hy : s.year = none) :
    (resolveDate env oy od s).1 = specResolveDate env oy od s := by
  rcases oy with _ | y <;> rcases od with _ | d
  · rcases henv : env.latestYear with e | y2
    · simp [resolveDate, specResolveDate, latest_puzzle_day, latest_event_year,
        hy, henv]
    · rcases hld : env.latestDayOf y2 with e2 | d2 <;>
        simp [resolveDate, specResolveDate, latest_puzzle_day, latest_event_year,
          hy, henv, hld]
  · rcases henv : env.latestYear with e | y2 <;>
      simp [resolveDate, specResolveDate, latest_event_year, henv]
  · cases hyo : env.yearOk y
    · simp [resolveDate, specResolveDate, year, hyo]
    · rcases hld : env.latestDayOf y with e2 | d2 <;>
        simp [resolveDate, specResolveDate, year, latest_puzzle_day, hyo, hld]
  · cases hyo : env.yearOk y <;>
      simp [resolveDate, specResolveDate, year, hyo]

/-! Claim theorems. -/

/-- C1: for every combination of optional year and optional day, the date
resolution of build_client applies exactly the steps of the four-row
fallback table of spec §4.1, in order, stopping at the first failing step,
and build_client propagates that step's error. -/
theorem date_resolution_follows_fallback_table (env : Env) (a : Args)
    (s1 : BuilderState) (hcred : (credStep env a initialBuilder).1 = .ok s1) :
    (resolveDate env a.year a.day s1).1 = specResolveDate env a.year a.day s1
    ∧ ∀ e, (resolveDate env a.year a.day s1).1 = .error e →
        (build_client env a).1 = .error e := by
  constructor
  · exact resolveDate_eq_spec env a.year a.day s1 (credStep_ok_year_none env a s1 hcred)
  · intro e he
    rcases hc : credStep env a initialBuilder with ⟨cr, ct⟩
    rw [hc] at hcred
    simp only at hcred
    subst hcred
    rcases hr : resolveDate env a.year a.day s1 with ⟨rr, rt⟩
    rw [hr] at he
    simp only at he
    subst he
    simp [build_client, hc, hr]

/-- C1 witness: on the all-success oracle with no year and no day given,
the credential step succeeds and the resolution equals the spec plan. -/
theorem date_resolution_follows_fallback_table_witness :
    (credStep envOk argsBase initialBuilder).1 = .ok builderWithCookie
    ∧ (resolveDate envOk argsBase.year argsBase.day builderWithCookie).1
        = specResolveDate envOk argsBase.year argsBase.day builderWithCookie :=
  ⟨rfl, (date_resolution_follows_fallback_table envOk argsBase builderWithCookie rfl).1⟩

/-- C9: the full client build runs before dispatch: its trace is always the
program's build trace; if it fails, no dispatched operation runs and the
build error alone determines the exit code; if it succeeds, the dispatched
operations are exactly those of run. -/
theorem build_precedes_dispatch (env : Env) (renv : REnv) (a : Args) :
    (program env renv a).buildTrace = (build_client env a).2
    ∧ (∀ e, (build_client env a).1 = .error e →
        (program env renv a).runOps = [] ∧ (program env renv a).exitCode = exitCodeOf e)
    ∧ ∀ c, (build_client env a).1 = .ok c →
        (program env renv a).runOps = (runT renv a c).2 := by
  rcases hbc : build_client env a with ⟨r, t⟩
  simp only [hbc]
  rcases r with e0 | c0
  · refine ⟨by simp [program, hbc], ?_, ?_⟩
    · intro e he
      simp only [Except.error.injEq] at he
      subst he
      simp [program, hbc]
    · intro c hc
      simp only [reduceCtorEq] at hc
  · refine ⟨?_, ?_, ?_⟩
    · rcases hrt : runT renv a c0 with ⟨rr, ops⟩
      rcases rr with e | u <;> simp [program, hbc, hrt]
    · intro e he
      simp only [reduceCtorEq] at he
    · intro c hc
      simp only [Except.ok.injEq] at hc
      subst hc
      rcases hrt : runT renv a c0 with ⟨rr, ops⟩
      rcases rr with e | u <;> simp [program, hbc, hrt]

/-- C9 witness: when default-locations credential discovery fails, the run
trace is empty and the exit code is that of the build error. -/
theorem build_precedes_dispatch_witness :
    (build_client envNoDefaultSession argsBase).1 = .error .invalidSessionCookie
    ∧ (program envNoDefaultSession renvOk argsBase).runOps = []
    ∧ (program envNoDefaultSession renvOk argsBase).exitCode
        = exitCodeOf .invalidSessionCookie :=
  ⟨rfl, (build_precedes_dispatch envNoDefaultSession renvOk argsBase).2.1
    .invalidSessionCookie rfl⟩

/-- C5: Download with the puzzle-only flag attempts only the
puzzle-description save; with the input-only flag only the input save;
with neither flag both in order, and a puzzle-description save failure is
propagated immediately, the input save never attempted. -/
theorem download_save_attempts (renv : REnv) (a : Args) (c : AocClient)
    (hc : a.command = some Command.download) :
    (a.puzzle_only = true → a.input_only = false →
      (runT renv a c).2 = [RunOp.savePuzzleMarkdown])
    ∧ (a.input_only = true → a.puzzle_only = false →
      (runT renv a c).2 = [RunOp.saveInput] ∧ (runT renv a c).1 = renv.saveInput)
    ∧ (a.input_only = false → a.puzzle_only = false →
      (∀ e, renv.savePuzzleMarkdown = .error e →
        runT renv a c = (.error e, [RunOp.savePuzzleMarkdown]))
      ∧ ∀ u, renv.savePuzzleMarkdown = .ok u →
        (runT renv a c).2 = [RunOp.savePuzzleMarkdown, RunOp.saveInput]
        ∧ (runT renv a c).1 = renv.saveInput) := by
  refine ⟨?_, ?_, ?_⟩
  · intro hp hi
    rcases hs : renv.savePuzzleMarkdown with e | u <;>
      simp [runT, hc, hp, hi, hs]
  · intro hi hp
    simp [runT, hc, hp, hi]
  · intro hi hp
    constructor
    · intro e he
      simp [runT, hc, hp, hi, he]
    · intro u hu
      simp [runT, hc, hp, hi, hu]

/-- C5 witness: with neither flag set and a failing puzzle-description
save, the error propagates and the input save is never attempted. -/
theorem download_save_attempts_witness :
    argsDownload.command = some Command.download
    ∧ argsDownload.input_only = false
    ∧ argsDownload.puzzle_only = false
    ∧ renvPuzzleSaveFails.savePuzzleMarkdown = .error .fileWriteError
    ∧ runT renvPuzzleSaveFails argsDownload clientBase
        = (.error .fileWriteError, [RunOp.savePuzzleMarkdown]) :=
  ⟨rfl, rfl, rfl, rfl,
    ((download_save_attempts renvPuzzleSaveFails argsDownload clientBase rfl).2.2
      rfl rfl).1 .fileWriteError rfl⟩

/-- C3 (amended): the GenerateCompletion dispatch branch itself never
produces a domain ErrorKind and invokes no client operation — it only
emits the completion script; the client build, however, still runs before
dispatch. -/
theorem generate_completion_dispatch_pure (renv : REnv) (a : Args)
    (c : AocClient) (sh : Shell)
    (h : a.command = some (Command.generateCompletion sh)) :
    runT renv a c = (.ok (), [RunOp.generateCompletion sh])
    ∧ (runT renv a c).2.filter isClientOp = [] := by
  constructor <;> simp [runT, h, isClientOp]

/-- C3 amended witness: a generate-completion invocation dispatches only
the completion emission and returns Ok. -/
theorem generate_completion_dispatch_pure_witness :
    argsCompletion.command = some (Command.generateCompletion Shell.bash)
    ∧ runT renvOk argsCompletion clientBase
        = (.ok (), [RunOp.generateCompletion Shell.bash]) :=
  ⟨rfl, (generate_completion_dispatch_pure renvOk argsCompletion clientBase
    Shell.bash rfl).1⟩

/-- C3 counterexample: an invocation whose subcommand is GenerateCompletion
but whose explicit session file is missing still performs the
session-credential access and fails with the domain error
SessionFileNotFound, exiting with NoInput before any completion output. -/
theorem generate_completion_accesses_credentials_cex :
    argsCompletionNoSession.command = some (Command.generateCompletion Shell.bash)
    ∧ (build_client envNoSessionFile argsCompletionNoSession).1
        = .error .sessionFileNotFound
    ∧ (program envNoSessionFile renvOk argsCompletionNoSession).exitCode = NO_INPUT
    ∧ (program envNoSessionFile renvOk argsCompletionNoSession).runOps = []
    ∧ Step.sessionCookieFromFile sessionPath
        ∈ (program envNoSessionFile renvOk argsCompletionNoSession).buildTrace := by
  refine ⟨rfl, rfl, rfl, rfl, ?_⟩
  have h : (program envNoSessionFile renvOk argsCompletionNoSession).buildTrace
      = [Step.sessionCookieFromFile sessionPath] := rfl
  rw [h]
  exact List.mem_singleton.mpr rfl

/-- The date-resolution trace contains no credential step. -/
theorem resolveDate_filter_credFree (env : Env) (oy : Option Int)
    (od : Option Nat) (s : BuilderState) :
    ((resolveDate env oy od s).2).filter isCredStep = [] := by
  rcases oy with _ | y <;> rcases od with _ | d
  · rfl
  · rcases h : latest_event_year env s with e | s1 <;> simp only [resolveDate, h] <;> rfl
  · rcases h : year env y s with e | s1 <;> simp only [resolveDate, h] <;> rfl
  · rcases h : year env y s with e | s1 <;> simp only [resolveDate, h] <;> rfl

/-- The date-resolution trace contains no output-width step. -/
theorem resolveDate_filter_widthFree (env : Env) (oy : Option Int)
    (od : Option Nat) (s : BuilderState) :
    ((resolveDate env oy od s).2).filter isWidthStep = [] := by
  rcases oy with _ | y <;> rcases od with _ | d
  · rfl
  · rcases h : latest_event_year env s with e | s1 <;> simp only [resolveDate, h] <;> rfl
  · rcases h : year env y s with e | s1 <;> simp only [resolveDate, h] <;> rfl
  · rcases h : year env y s with e | s1 <;> simp only [resolveDate, h] <;> rfl

/-- The credential-step trace contains no output-width step. -/
theorem credStep_filter_widthFree (env : Env) (a : Args) (s : BuilderState) :
    ((credStep env a s).2).filter isWidthStep = [] := by
  rcases h : a.session_file with _ | file <;> simp only [credStep, h] <;> rfl

/-- The trace of build_client is the credential-step trace followed by a
remainder free of credential steps. -/
theorem build_client_trace_split (env : Env) (a : Args) :
    ∃ rest, (build_client env a).2 = (credStep env a initialBuilder).2 ++ rest
      ∧ rest.filter isCredStep = [] := by
  rcases hc : credStep env a initialBuilder with ⟨cr, ct⟩
  rcases cr with e | s1
  · exact ⟨[], by simp [build_client, hc], rfl⟩
  · rcases hr : resolveDate env a.year a.day s1 with ⟨rr, rt⟩
    have hrt : rt.filter isCredStep = [] := by
      have := resolveDate_filter_credFree env a.year a.day s1
      rw [hr] at this
      exact this
    rcases rr with e | s2
    · exact ⟨rt, by simp [build_client, hc, hr], hrt⟩
    · rcases hw : a.width with _ | w
      · refine ⟨rt ++ finishSteps a, ?_, ?_⟩
        · simp [build_client, hc, hr, hw, finishBuild]
        · simp only [List.filter_append, hrt, List.nil_append]
          rfl
      · rcases ho : output_width env w s2 with e | s3
        · refine ⟨rt ++ [Step.setOutputWidth w], ?_, ?_⟩
          · simp [build_client, hc, hr, hw, ho]
          · simp only [List.filter_append, hrt, List.nil_append]
            rfl
        · refine ⟨rt ++ ([Step.setOutputWidth w] ++ finishSteps a), ?_, ?_⟩
          · simp [build_client, hc, hr, hw, ho, finishBuild]
          · simp only [List.filter_append, hrt, List.nil_append]
            rfl

/-- On a successful credential step and date resolution, the trace of
build_client extends theirs with a remainder whose only width step is the
one for the supplied width, if any. -/
theorem build_client_trace_ok (env : Env) (a : Args) (s1 s2 : BuilderState)
    (h1 : (credStep env a initialBuilder).1 = .ok s1)
    (h2 : (resolveDate env a.year a.day s1).1 = .ok s2) :
    ∃ rest, (build_client env a).2
        = (credStep env a initialBuilder).2 ++ (resolveDate env a.year a.day s1).2 ++ rest
      ∧ rest.filter isWidthStep
        = (match a.width with | some w => [Step.setOutputWidth w] | none => []) := by
  rcases hc : credStep env a initialBuilder with ⟨cr, ct⟩
  rw [hc] at h1
  simp only at h1
  subst h1
  rcases hr : resolveDate env a.year a.day s1 with ⟨rr, rt⟩
  rw [hr] at h2
  simp only at h2
  subst h2
  rcases hw : a.width with _ | w
  · refine ⟨finishSteps a, ?_, by simp only [hw]; rfl⟩
    simp [build_client, hc, hr, hw, finishBuild]
  · rcases ho : output_width env w s2 with e | s3
    · refine ⟨[Step.setOutputWidth w], ?_, by simp only [hw]; rfl⟩
      simp [build_client, hc, hr, hw, ho]
    · refine ⟨[Step.setOutputWidth w] ++ finishSteps a, ?_, by simp only [hw]; rfl⟩
      simp [build_client, hc, hr, hw, ho, finishBuild]

/-- C6: exactly one of the two credential operations is performed — the
explicit-file load when a path is supplied, default-locations discovery
otherwise — never both, as the first step of the build; its failure is
propagated immediately, before any date resolution. -/
theorem credential_step_exclusive (env : Env) (a : Args) :
    (build_client env a).2.filter isCredStep
      = [match a.session_file with
         | some file => Step.sessionCookieFromFile file
         | none => Step.sessionCookieFromDefaultLocations]
    ∧ (build_client env a).2.head?
      = some (match a.session_file with
         | some file => Step.sessionCookieFromFile file
         | none => Step.sessionCookieFromDefaultLocations)
    ∧ ∀ e, (credStep env a initialBuilder).1 = .error e →
        build_client env a
          = (.error e, [match a.session_file with
             | some file => Step.sessionCookieFromFile file
             | none => Step.sessionCookieFromDefaultLocations]) := by
  obtain ⟨rest, hsplit, hfree⟩ := build_client_trace_split env a
  refine ⟨?_, ?_, ?_⟩
  · rw [hsplit, List.filter_append, hfree, List.append_nil]
    rcases hsf : a.session_file with _ | file <;> simp [credStep, hsf, isCredStep]
  · rw [hsplit]
    rcases hsf : a.session_file with _ | file <;> simp [credStep, hsf]
  · intro e he
    rcases hsf : a.session_file with _ | file
    · rcases hop : env.sessionFromDefaultLocations with e0 | u <;>
        simp only [credStep, hsf, session_cookie_from_default_locations, hop,
          reduceCtorEq, Except.error.injEq] at he
      subst he
      simp [build_client, credStep, hsf, session_cookie_from_default_locations, hop]
    · rcases hop : env.sessionFromFile file with e0 | u <;>
        simp only [credStep, hsf, session_cookie_from_file, hop,
          reduceCtorEq, Except.error.injEq] at he
      subst he
      simp [build_client, credStep, hsf, session_cookie_from_file, hop]

/-- C6 witness: with a failing default-locations discovery the build stops
at the single credential step and propagates its error. -/
theorem credential_step_exclusive_witness :
    argsBase.session_file = none
    ∧ (credStep envNoDefaultSession argsBase initialBuilder).1
        = .error .invalidSessionCookie
    ∧ build_client envNoDefaultSession argsBase
        = (.error .invalidSessionCookie, [Step.sessionCookieFromDefaultLocations]) :=
  ⟨rfl, rfl, (credential_step_exclusive envNoDefaultSession argsBase).2.2
    .invalidSessionCookie rfl⟩

/-- C8: given a successful credential step and date resolution, the
output-width step is performed if and only if a width was supplied, it
comes after the date-resolution steps, its failure surfaces
InvalidOutputWidth, and it never alters the resolved year and day. -/
theorem output_width_step_independent (env : Env) (a : Args) (s1 s2 : BuilderState)
    (h1 : (credStep env a initialBuilder).1 = .ok s1)
    (h2 : (resolveDate env a.year a.day s1).1 = .ok s2) :
    (∃ rest, (build_client env a).2
        = (credStep env a initialBuilder).2 ++ (resolveDate env a.year a.day s1).2 ++ rest
      ∧ rest.filter isWidthStep
        = (match a.width with | some w => [Step.setOutputWidth w] | none => []))
    ∧ ((resolveDate env a.year a.day s1).2).filter isWidthStep = []
    ∧ ((credStep env a initialBuilder).2).filter isWidthStep = []
    ∧ (∀ w, a.width = some w → env.widthOk w = false →
        (build_client env a).1 = .error .invalidOutputWidth)
    ∧ ∀ w s s3, output_width env w s = .ok s3 → s3.year = s.year ∧ s3.day = s.day := by
  refine ⟨build_client_trace_ok env a s1 s2 h1 h2,
    resolveDate_filter_widthFree env a.year a.day s1,
    credStep_filter_widthFree env a initialBuilder, ?_, ?_⟩
  · intro w hw hbad
    rcases hc : credStep env a initialBuilder with ⟨cr, ct⟩
    rw [hc] at h1
    simp only at h1
    subst h1
    rcases hr : resolveDate env a.year a.day s1 with ⟨rr, rt⟩
    rw [hr] at h2
    simp only at h2
    subst h2
    simp [build_client, hc, hr, hw, output_width, hbad]
  · intro w s s3 h
    unfold output_width at h
    cases hok : env.widthOk w <;> rw [hok] at h <;> simp only [if_true, if_false,
      Bool.false_eq_true, ite_false, ite_true, reduceCtorEq, Except.ok.injEq] at h
    subst h
    exact ⟨rfl, rfl⟩

/-- C8 witness: with a supplied width the oracle rejects, the build fails
with InvalidOutputWidth after a successful credential step and date
resolution. -/
theorem output_width_step_independent_witness :
    (credStep envBadWidth argsWide initialBuilder).1 = .ok builderWithCookie
    ∧ (resolveDate envBadWidth argsWide.year argsWide.day builderWithCookie).1
        = .ok builderResolved
    ∧ argsWide.width = some 100
    ∧ envBadWidth.widthOk 100 = false
    ∧ (build_client envBadWidth argsWide).1 = .error .invalidOutputWidth :=
  ⟨rfl, rfl, rfl, rfl,
    (output_width_step_independent envBadWidth argsWide builderWithCookie
      builderResolved rfl rfl).2.2.2.1 100 rfl rfl⟩

/-- C2: the error-to-exit-code classification is a total function over the
closed ErrorKind set matching the §6 table exactly, and a successful run
exits with Success. -/
theorem exit_classifier_matches_spec_table :
    (∀ e : ErrorKind, exitCodeOf e = specExitCode e)
    ∧ ∀ (env : Env) (renv : REnv) (a : Args) (c : AocClient),
        (build_client env a).1 = .ok c → (runT renv a c).1 = .ok () →
        (program env renv a).exitCode = SUCCESS := by
  constructor
  · intro e; cases e <;> rfl
  · intro env renv a c hb hr
    rcases hbc : build_client env a with ⟨r, t⟩
    rw [hbc] at hb
    simp only at hb
    subst hb
    rcases hrt : runT renv a c with ⟨r2, ops⟩
    rw [hrt] at hr
    simp only at hr
    subst hr
    simp [program, hbc, hrt]

/-- C2 witness: on the all-success oracles both hypotheses hold and the
exit code is Success. -/
theorem exit_classifier_matches_spec_table_witness :
    (build_client envOk argsBase).1 = .ok clientBase
    ∧ (runT renvOk argsBase clientBase).1 = .ok ()
    ∧ (program envOk renvOk argsBase).exitCode = SUCCESS :=
  ⟨rfl, rfl, exit_classifier_matches_spec_table.2 envOk renvOk argsBase clientBase rfl rfl⟩

/-- C4: the credential-expiry warning is emitted if and only if the exit
code computed by the classifier equals the generic Failure code. -/
theorem failure_warning_iff_failure_exit (env : Env) (renv : REnv) (a : Args) :
    (program env renv a).warned = true ↔ (program env renv a).exitCode = FAILURE := by
  rcases hbc : build_client env a with ⟨r, t⟩
  rcases r with e | c
  · simp [program, hbc]
  · rcases hrt : runT renv a c with ⟨r2, ops⟩
    rcases r2 with e | u
    · simp [program, hbc, hrt]
    · simp [program, hbc, hrt, SUCCESS, FAILURE]

/-- C7: when no subcommand is supplied the dispatcher invokes exactly the
operation of the explicit read subcommand: rendering the puzzle
description on the built client. -/
theorem no_subcommand_equals_read (renv : REnv) (a : Args) (c : AocClient) :
    runT renv { a with command := none } c
      = runT renv { a with command := some Command.read } c
    ∧ runT renv { a with command := none } c = (renv.showPuzzle, [RunOp.showPuzzle]) :=
  ⟨rfl, rfl⟩

/-- C10: when both the quiet and the debug flag are set, quiet wins: the
program's log namespace is filtered to error-only and the debug filter is
not applied. -/
theorem quiet_overrides_debug (envFilter : Option String) (a : Args)
    (hq : a.quiet = true) (_hd : a.debug = true) :
    (setup_log envFilter a).aocModuleFilter = some LevelFilter.error
    ∧ (setup_log envFilter a).aocModuleFilter ≠ some LevelFilter.debug := by
  constructor <;> simp [setup_log, hq]

/-- C10 witness: with both flags set the module filter is error-only. -/
theorem quiet_overrides_debug_witness :
    argsQuietDebug.quiet = true ∧ argsQuietDebug.debug = true
    ∧ (setup_log none argsQuietDebug).aocModuleFilter = some LevelFilter.error :=
  ⟨rfl, rfl, (quiet_overrides_debug none argsQuietDebug rfl rfl).1⟩

end AocCli
